import Mathlib

/-!
Verification development for the `check-connection` CLI tool.

The repository is a small Node.js program (`src/cli.js`, plus a variant in
`src/unnamed/part_000`) that probes a TCP port on a host and optionally looks
up ASN information for the resolved IP via the Team Cymru whois service.

This file gives a shallow embedding of the logic of the program:

* the end-of-stream parse inside `getAsnInfoFromCymru` (`src/cli.js` 56-87)
  as a pure function on the accumulated response text;
* the event-handler race inside `checkConnection` (`src/cli.js` 13-35 and
  `src/unnamed/part_000` 13-44) as a step function on an explicit state,
  driven by a list of socket events;
* the `run` orchestration (`src/cli.js` 94-167) as a function from the
  argument list and an environment (resolution result, probe settlement,
  accumulated whois text or transport error) to the ordered trace of
  observable actions (emitted lines, operation starts/settlements, exit).

Theorems below settle the frozen claims about the program against these
definitions.
-/

/-- The record built by `getAsnInfoFromCymru` in `src/cli.js` (lines 71-79).
JS field names: `asn`, `ipReported`, `prefix`, `cc`, `registry`, `allocated`,
`asName`.  The JS field `prefix` is a Lean keyword, so it is rendered here as
`prefixField`; the order and meaning of the seven fields is unchanged. -/
structure AsnRecord where
  asn : String
  ipReported : String
  prefixField : String
  cc : String
  registry : String
  allocated : String
  asName : String
deriving DecidableEq, Repr

/-- JavaScript `String.prototype.split` with a single-character separator,
on the underlying character list.  `"".split(sep)` is `[""]`, a trailing
separator yields a trailing empty piece, exactly as in JS. -/
def splitOnChar (sep : Char) : List Char → List (List Char)
  | [] => [[]]
  | c :: cs =>
      match splitOnChar sep cs with
      | [] => if c = sep then [[], []] else [[c]]
      | r :: rs => if c = sep then [] :: r :: rs else (c :: r) :: rs

/-- JavaScript `String.prototype.split` with a single-character separator. -/
def jsSplit (sep : Char) (s : String) : List String :=
  (splitOnChar sep s.data).map String.mk

/-- JavaScript `String.prototype.trim`: strip leading and trailing
whitespace. -/
def jsTrim (s : String) : String :=
  String.mk (((s.data.dropWhile Char.isWhitespace).reverse.dropWhile
    Char.isWhitespace).reverse)

/-- Lines 58-61 of `src/cli.js`: split the accumulated response on the
newline character, trim each piece, drop empty pieces. -/
def cymruLines (rawData : String) : List String :=
  ((jsSplit '\n' rawData).map jsTrim).filter (fun l => l != "")

/-- Line 68 of `src/cli.js`: split a row on the pipe delimiter and trim
each field. -/
def cymruColumns (row : String) : List String :=
  (jsSplit '|' row).map jsTrim

/-- The parse performed in the `end` handler of `getAsnInfoFromCymru`
(`src/cli.js` 56-87): if more than one non-empty line remains, take the second
line, split it into trimmed columns, and when at least 7 columns are present
build the record from the first seven, positionally; otherwise the result is
absence (`null` in the JS source, `none` here). -/
def getAsnInfoFromCymruParse (rawData : String) : Option AsnRecord :=
  let lines := cymruLines rawData
  if 1 < lines.length then
    let columns := cymruColumns (lines.getD 1 "")
    if 7 ≤ columns.length then
      some { asn := columns.getD 0 "", ipReported := columns.getD 1 "",
             prefixField := columns.getD 2 "", cc := columns.getD 3 "",
             registry := columns.getD 4 "", allocated := columns.getD 5 "",
             asName := columns.getD 6 "" }
    else none
  else none

/-- The synthetic whois response of the round-trip property of the spec. -/
def c3Response : String :=
  "AS | IP | BGP Prefix | CC | Registry | Allocated | AS Name\n15169 | 8.8.8.8 | 8.8.8.0/24 | US | ARIN | 1992-12-01 | GOOGLE - Google LLC, US\n"

/-- The same response with an extra trailing column on the data row. -/
def c3ResponseExtra : String :=
  "AS | IP | BGP Prefix | CC | Registry | Allocated | AS Name\n15169 | 8.8.8.8 | 8.8.8.0/24 | US | ARIN | 1992-12-01 | GOOGLE - Google LLC, US | EXTRA\n"

/-- The record the round-trip response is expected to parse to. -/
def googleRec : AsnRecord :=
  { asn := "15169", ipReported := "8.8.8.8", prefixField := "8.8.8.0/24",
    cc := "US", registry := "ARIN", allocated := "1992-12-01",
    asName := "GOOGLE - Google LLC, US" }

/-!
## The `checkConnection` race

Both variants create a socket, register three listeners (`connect`,
`timeout`, `error`) and let whichever event fires first settle a promise.
The embedding models the socket/promise pair as an explicit state and each
listener bodies of each variant as a step function consumed by a fold over the
(arbitrary) sequence of delivered socket events.  A destroyed socket
delivers no further events (Node emits nothing after `destroy()`); a settled
promise ignores further `resolve`/`reject` calls (promise semantics).
Neither variant ever calls `removeListener` or detaches a handler, which the
`listenersDetached` field records: no step function ever sets it.
-/

/-- The three socket events raced by `checkConnection`. -/
inductive SockEvent
  | connect
  | timeout
  | error (msg : String)
deriving DecidableEq, Repr

/-- A settlement of the `checkConnection` promise: resolution carrying a
value of type `α` (`Unit` in `src/cli.js`, the resolved IP string in
`src/unnamed/part_000`), or rejection with the message of the `Error`. -/
inductive Outcome (α : Type)
  | opened (v : α)
  | timedOut (msg : String)
  | errored (msg : String)
deriving DecidableEq, Repr

/-- State of one `checkConnection` call: the promise settlement (at most
one, first wins), whether `socket.destroy()` was called, whether
`socket.end()` was called, and whether any listener was ever detached. -/
structure RaceState (α : Type) where
  settled : Option (Outcome α)
  destroyed : Bool
  ended : Bool
  listenersDetached : Bool
deriving DecidableEq, Repr

/-- The state right after `socket.connect(port, ip)` is issued: promise
pending, socket live, all three listeners attached. -/
def raceInit {α : Type} : RaceState α :=
  { settled := none, destroyed := false, ended := false,
    listenersDetached := false }

/-- Promise settlement: a second `resolve`/`reject` on an already-settled
promise is a no-op. -/
def settle {α : Type} (s : RaceState α) (o : Outcome α) : RaceState α :=
  match s.settled with
  | some _ => s
  | none => { s with settled := some o }

/-- The timeout message of `src/cli.js` line 25. -/
def cliTimeoutMsg (ip port : String) (timeoutMs : Nat) : String :=
  "Timed out after " ++ toString timeoutMs ++ "ms trying to connect to " ++
    ip ++ ":" ++ port

/-- The timeout message of `src/unnamed/part_000` line 32 (uses the original
`host`, not the resolved IP). -/
def variantTimeoutMsg (host port : String) (timeoutMs : Nat) : String :=
  "Timed out after " ++ toString timeoutMs ++ "ms trying to connect to " ++
    host ++ ":" ++ port

/-- One delivered socket event under the listeners of `checkConnection` in
`src/cli.js` (lines 13-35): `connect` ends the socket then resolves;
`timeout` destroys then rejects with the timeout message; `error` destroys
then rejects with the message of the error.  A destroyed socket delivers no
events. -/
def cliCheckConnectionStep (ip port : String) (timeoutMs : Nat)
    (s : RaceState Unit) (e : SockEvent) : RaceState Unit :=
  if s.destroyed then s
  else
    match e with
    | SockEvent.connect => settle { s with ended := true } (Outcome.opened ())
    | SockEvent.timeout =>
        settle { s with destroyed := true }
          (Outcome.timedOut (cliTimeoutMsg ip port timeoutMs))
    | SockEvent.error m => settle { s with destroyed := true } (Outcome.errored m)

/-- One delivered socket event under the listeners of `checkConnection` in
`src/unnamed/part_000` (lines 17-43): identical shape, but `connect`
resolves with the resolved IP and the timeout message names the original
host. -/
def variantCheckConnectionStep (host port : String) (timeoutMs : Nat)
    (resolvedIp : String) (s : RaceState String) (e : SockEvent) :
    RaceState String :=
  if s.destroyed then s
  else
    match e with
    | SockEvent.connect => settle { s with ended := true } (Outcome.opened resolvedIp)
    | SockEvent.timeout =>
        settle { s with destroyed := true }
          (Outcome.timedOut (variantTimeoutMsg host port timeoutMs))
    | SockEvent.error m => settle { s with destroyed := true } (Outcome.errored m)

/-- Run the `src/cli.js` race over a delivered event sequence. -/
def cliRace (ip port : String) (timeoutMs : Nat) (evs : List SockEvent) :
    RaceState Unit :=
  evs.foldl (cliCheckConnectionStep ip port timeoutMs) raceInit

/-- Run the `src/unnamed/part_000` race over a delivered event sequence. -/
def variantRace (host port : String) (timeoutMs : Nat) (resolvedIp : String)
    (evs : List SockEvent) : RaceState String :=
  evs.foldl (variantCheckConnectionStep host port timeoutMs resolvedIp) raceInit

/-- The settlement the `src/cli.js` listeners produce for a given first
event. -/
def cliOutcomeOf (ip port : String) (timeoutMs : Nat) : SockEvent → Outcome Unit
  | SockEvent.connect => Outcome.opened ()
  | SockEvent.timeout => Outcome.timedOut (cliTimeoutMsg ip port timeoutMs)
  | SockEvent.error m => Outcome.errored m

/-- The settlement the `src/unnamed/part_000` listeners produce for a given
first event. -/
def variantOutcomeOf (host port : String) (timeoutMs : Nat) (resolvedIp : String) :
    SockEvent → Outcome String
  | SockEvent.connect => Outcome.opened resolvedIp
  | SockEvent.timeout => Outcome.timedOut (variantTimeoutMsg host port timeoutMs)
  | SockEvent.error m => Outcome.errored m

/-- Classification of a settlement: the caller-visible outcome class. -/
inductive OutcomeClass
  | success
  | timeoutClass
  | failure
deriving DecidableEq, Repr

/-- The class of a settlement. -/
def classOf {α : Type} : Outcome α → OutcomeClass
  | Outcome.opened _ => OutcomeClass.success
  | Outcome.timedOut _ => OutcomeClass.timeoutClass
  | Outcome.errored _ => OutcomeClass.failure

/-- The class each first-arriving event settles to, in both variants. -/
def eventClass : SockEvent → OutcomeClass
  | SockEvent.connect => OutcomeClass.success
  | SockEvent.timeout => OutcomeClass.timeoutClass
  | SockEvent.error _ => OutcomeClass.failure

/-- Whether the gracious `socket.end()` is called on a first event. -/
def eventEndsSocket : SockEvent → Bool
  | SockEvent.connect => true
  | _ => false

/-- Whether `socket.destroy()` is called on a first event. -/
def eventDestroysSocket : SockEvent → Bool
  | SockEvent.connect => false
  | _ => true

/-!
## The `run` orchestration

`run` in `src/cli.js` (lines 94-167) parses the argument list, resolves the
host, awaits the probe, prints the probe result line, then — when `--asn`
was passed — awaits the ASN lookup and prints its report, and finally exits
with a code determined by the probe alone.  The embedding renders `run` as a
function from the argument list and an environment (the externally-supplied
settlements of the three network operations) to the ordered trace of
observable actions.  `process.exit` terminates the process, so the exit code
of an invocation is the first `exitCode` action of its trace.
-/

/-- Observable actions of one invocation, in program order. -/
inductive Ev
  | emitOut (line : String)
  | emitErr (line : String)
  | probeStart (ip port : String) (timeoutMs : Nat)
  | probeSettled
  | asnStart (ip : String)
  | asnSettled
  | exitCode (code : Nat)
deriving DecidableEq, Repr

/-- The environment of one invocation: how `dns.lookup` settles (error
message or resolved IP), how the `checkConnection` promise settles, and how
the ASN lookup session ends (transport error message, or the accumulated
response text delivered before the remote peer closed the stream). -/
structure Env where
  resolved : Except String String
  probe : Outcome Unit
  asnSession : Except String String
deriving Repr

/-- Lines 95-106 of `src/cli.js`: the for-loop that strips `--asn` from the argument
list and collects the remaining arguments in order. -/
def argvParse (args : List String) : Bool × List String :=
  args.foldl
    (fun acc a => if a = "--asn" then (true, acc.2) else (acc.1, acc.2 ++ [a]))
    (false, [])

/-- Whether `--asn` was passed. -/
def asnFlagOf (args : List String) : Bool := (argvParse args).1

/-- The first positional argument (`host`); the empty string doubles for the
JS `undefined` of a missing argument — both are falsy under the `!host`
usage check. -/
def hostOf (args : List String) : String := ((argvParse args).2.get? 0).getD ""

/-- The second positional argument (`port`), as a raw string. -/
def portOf (args : List String) : String := ((argvParse args).2.get? 1).getD ""

/-- Line 113 of `src/cli.js`: the usage line. -/
def usageMsg : String := "Usage: check-connection [--asn] <host> <port>"

/-- Line 123 of `src/cli.js`: the resolution-error line. -/
def resolveErrMsg (host m : String) : String :=
  "Error resolving hostname \x27" ++ host ++ "\x27: " ++ m

/-- Whether the probe promise resolved (`connectionSuccess` in the source). -/
def probeOk (o : Outcome Unit) : Bool :=
  match o with
  | Outcome.opened _ => true
  | _ => false

/-- Lines 138-141 of `src/cli.js`: the probe result line. -/
def probeLineMsg (host ip port : String) (ok : Bool) : String :=
  if ok then
    "[" ++ host ++ "] resolved to [" ++ ip ++ "] - Port " ++ port ++ " is open"
  else
    "[" ++ host ++ "] resolved to [" ++ ip ++ "] - Port " ++ port ++ " is NOT open"

/-- Line 158 of `src/cli.js`: the no-information line. -/
def noAsnMsg : String := "No ASN information could be retrieved for this IP."

/-- Line 161 of `src/cli.js`: the non-fatal ASN transport diagnostic. -/
def asnErrMsg (m : String) : String := "Error fetching ASN info: " ++ m

/-- Lines 150-156 of `src/cli.js`: the six labeled ASN report lines. -/
def asnReportLines (r : AsnRecord) : List Ev :=
  [Ev.emitOut ("ASN:       " ++ r.asn),
   Ev.emitOut ("AS Name:   " ++ r.asName),
   Ev.emitOut ("BGP Prefix: " ++ r.prefixField),
   Ev.emitOut ("CC:        " ++ r.cc),
   Ev.emitOut ("Registry:  " ++ r.registry),
   Ev.emitOut ("Allocated: " ++ r.allocated)]

/-- Lines 146-163 of `src/cli.js`: the ASN block — start the lookup, await its
settlement, then report: the six lines of the parsed record, the no-information
line, or (in the `catch`) the transport diagnostic. -/
def asnEvents (ip : String) (session : Except String String) : List Ev :=
  Ev.asnStart ip :: Ev.asnSettled ::
    match session with
    | Except.error m => [Ev.emitErr (asnErrMsg m)]
    | Except.ok raw =>
        match getAsnInfoFromCymruParse raw with
        | some rec => asnReportLines rec
        | none => [Ev.emitOut noAsnMsg]

/-- The trace of one invocation of `run` (`src/cli.js` 94-167). -/
def run (args : List String) (env : Env) : List Ev :=
  if hostOf args = "" ∨ portOf args = "" then
    [Ev.emitErr usageMsg, Ev.exitCode 1]
  else
    match env.resolved with
    | Except.error m => [Ev.emitErr (resolveErrMsg (hostOf args) m), Ev.exitCode 1]
    | Except.ok ip =>
        Ev.probeStart ip (portOf args) 5000 :: Ev.probeSettled ::
          Ev.emitOut (probeLineMsg (hostOf args) ip (portOf args)
            (probeOk env.probe)) ::
          ((if asnFlagOf args then asnEvents ip env.asnSession else []) ++
            [Ev.exitCode (if probeOk env.probe then 0 else 1)])

/-- The process exit code of a trace: the first `exitCode` action
(`process.exit` terminates the process). -/
def finalExit : List Ev → Option Nat
  | [] => none
  | Ev.exitCode n :: _ => some n
  | _ :: rest => finalExit rest

/-- Whether an action is the start of the port probe. -/
def isProbeStart : Ev → Bool
  | Ev.probeStart _ _ _ => true
  | _ => false

/-- Whether an action is the start of the ASN lookup. -/
def isAsnStart : Ev → Bool
  | Ev.asnStart _ => true
  | _ => false

/-- Whether an invocation reaches the probing stage: its trace starts the
probe. -/
def probed (args : List String) (env : Env) : Bool :=
  (run args env).any isProbeStart

/-- Trace predicate: every emitted line occurs only after both the probe and
the ASN lookup have settled.  `ps`/`qs` accumulate whether `probeSettled` /
`asnSettled` have been seen. -/
def noEmitBeforeBothSettledGo (ps qs : Bool) : List Ev → Bool
  | [] => true
  | Ev.probeSettled :: rest => noEmitBeforeBothSettledGo true qs rest
  | Ev.asnSettled :: rest => noEmitBeforeBothSettledGo ps true rest
  | Ev.emitOut _ :: rest => ps && qs && noEmitBeforeBothSettledGo ps qs rest
  | Ev.emitErr _ :: rest => ps && qs && noEmitBeforeBothSettledGo ps qs rest
  | _ :: rest => noEmitBeforeBothSettledGo ps qs rest

/-- Every emitted line of the trace comes after both operations settled. -/
def noEmitBeforeBothSettled (evs : List Ev) : Bool :=
  noEmitBeforeBothSettledGo false false evs

/-- Trace predicate: every emitted line occurs after the probe settled. -/
def probeSettledBeforeEmitsGo (ps : Bool) : List Ev → Bool
  | [] => true
  | Ev.probeSettled :: rest => probeSettledBeforeEmitsGo true rest
  | Ev.emitOut _ :: rest => ps && probeSettledBeforeEmitsGo ps rest
  | Ev.emitErr _ :: rest => ps && probeSettledBeforeEmitsGo ps rest
  | _ :: rest => probeSettledBeforeEmitsGo ps rest

/-- Every emitted line of the trace comes after the probe settled. -/
def probeSettledBeforeEmits (evs : List Ev) : Bool :=
  probeSettledBeforeEmitsGo false evs

/-- Trace predicate: every line emitted after the ASN lookup started occurs
only after the ASN lookup settled. -/
def asnSettledBeforeAsnEmitsGo (started stld : Bool) : List Ev → Bool
  | [] => true
  | Ev.asnStart _ :: rest => asnSettledBeforeAsnEmitsGo true stld rest
  | Ev.asnSettled :: rest => asnSettledBeforeAsnEmitsGo started true rest
  | Ev.emitOut _ :: rest =>
      (!started || stld) && asnSettledBeforeAsnEmitsGo started stld rest
  | Ev.emitErr _ :: rest =>
      (!started || stld) && asnSettledBeforeAsnEmitsGo started stld rest
  | _ :: rest => asnSettledBeforeAsnEmitsGo started stld rest

/-- Every line emitted after the ASN lookup started comes after it settled. -/
def asnSettledBeforeAsnEmits (evs : List Ev) : Bool :=
  asnSettledBeforeAsnEmitsGo false false evs

/-- The report the ASN block owes for a given session ending: the six
labeled lines of the parsed record, the no-information line, or the
transport diagnostic. -/
def asnSettlementReported (session : Except String String) (evs : List Ev) : Prop :=
  match session with
  | Except.error m => Ev.emitErr (asnErrMsg m) ∈ evs
  | Except.ok raw =>
      match getAsnInfoFromCymruParse raw with
      | some rec => ∀ l ∈ asnReportLines rec, l ∈ evs
      | none => Ev.emitOut noAsnMsg ∈ evs

/-- Invocation environment: resolution succeeds, port open, ASN session
returns the synthetic Cymru response. -/
def envOpenAsn : Env :=
  { resolved := Except.ok "9.9.9.9", probe := Outcome.opened (),
    asnSession := Except.ok c3Response }

/-- Invocation environment: resolution succeeds, connection refused, ASN
session returns the synthetic Cymru response. -/
def envRefused : Env :=
  { resolved := Except.ok "9.9.9.9",
    probe := Outcome.errored "connect ECONNREFUSED 9.9.9.9:81",
    asnSession := Except.ok c3Response }

/-- Invocation environment: hostname resolution fails. -/
def envResolveFail : Env :=
  { resolved := Except.error "getaddrinfo ENOTFOUND nosuch.example",
    probe := Outcome.opened (), asnSession := Except.ok "" }

/-- Invocation environment for an out-of-range port value: resolution
succeeds; the runtime socket layer rejects the port, surfacing as a
rejection of the probe promise. -/
def envBadPort : Env :=
  { resolved := Except.ok "198.51.100.7",
    probe := Outcome.errored "options.port should be >= 0 and < 65536. Received type string (\x2770000\x27).",
    asnSession := Except.ok "" }

/-!
## Helper lemmas
-/

lemma cliStep_preserves_settled (ip port : String) (t : Nat)
    (s : RaceState Unit) (e : SockEvent) (o : Outcome Unit)
    (h : s.settled = some o) :
    (cliCheckConnectionStep ip port t s e).settled = some o := by
  unfold cliCheckConnectionStep
  by_cases hd : s.destroyed = true
  · simp [hd, h]
  · simp only [Bool.not_eq_true] at hd
    cases e <;> simp [hd, settle, h]

lemma variantStep_preserves_settled (host port : String) (t : Nat)
    (rip : String) (s : RaceState String) (e : SockEvent) (o : Outcome String)
    (h : s.settled = some o) :
    (variantCheckConnectionStep host port t rip s e).settled = some o := by
  unfold variantCheckConnectionStep
  by_cases hd : s.destroyed = true
  · simp [hd, h]
  · simp only [Bool.not_eq_true] at hd
    cases e <;> simp [hd, settle, h]

lemma cliRace_foldl_settled (ip port : String) (t : Nat) (o : Outcome Unit) :
    ∀ (evs : List SockEvent) (s : RaceState Unit), s.settled = some o →
      (evs.foldl (cliCheckConnectionStep ip port t) s).settled = some o := by
  intro evs
  induction evs with
  | nil => intro s h; simpa using h
  | cons e rest ih =>
      intro s h
      exact ih _ (cliStep_preserves_settled ip port t s e o h)

lemma variantRace_foldl_settled (host port : String) (t : Nat) (rip : String)
    (o : Outcome String) :
    ∀ (evs : List SockEvent) (s : RaceState String), s.settled = some o →
      (evs.foldl (variantCheckConnectionStep host port t rip) s).settled = some o := by
  intro evs
  induction evs with
  | nil => intro s h; simpa using h
  | cons e rest ih =>
      intro s h
      exact ih _ (variantStep_preserves_settled host port t rip s e o h)

lemma cliRace_first_event (ip port : String) (t : Nat) (e : SockEvent)
    (evs : List SockEvent) :
    (cliRace ip port t (e :: evs)).settled = some (cliOutcomeOf ip port t e) := by
  have hfirst :
      (cliCheckConnectionStep ip port t raceInit e).settled =
        some (cliOutcomeOf ip port t e) := by
    cases e <;> simp [cliCheckConnectionStep, raceInit, settle, cliOutcomeOf]
  simpa [cliRace, List.foldl_cons] using
    cliRace_foldl_settled ip port t (cliOutcomeOf ip port t e) evs _ hfirst

lemma variantRace_first_event (host port : String) (t : Nat) (rip : String)
    (e : SockEvent) (evs : List SockEvent) :
    (variantRace host port t rip (e :: evs)).settled =
      some (variantOutcomeOf host port t rip e) := by
  have hfirst :
      (variantCheckConnectionStep host port t rip raceInit e).settled =
        some (variantOutcomeOf host port t rip e) := by
    cases e <;> simp [variantCheckConnectionStep, raceInit, settle, variantOutcomeOf]
  simpa [variantRace, List.foldl_cons] using
    variantRace_foldl_settled host port t rip (variantOutcomeOf host port t rip e)
      evs _ hfirst

lemma string_append_assoc (a b c : String) : a ++ b ++ c = a ++ (b ++ c) := by
  apply String.ext
  simp [String.data_append, List.append_assoc]

lemma probed_elim (args : List String) (env : Env)
    (h : probed args env = true) :
    ¬(hostOf args = "" ∨ portOf args = "") ∧
      ∃ ip, env.resolved = Except.ok ip := by
  by_cases hc : hostOf args = "" ∨ portOf args = ""
  · exfalso
    simp [probed, run, hc, isProbeStart] at h
  · refine ⟨hc, ?_⟩
    cases hres : env.resolved with
    | error m =>
        exfalso
        simp [probed, run, hc, hres, isProbeStart] at h
    | ok ip => exact ⟨ip, rfl⟩

lemma finalExit_asnEvents_append (ip : String) (session : Except String String)
    (tailEvs : List Ev) :
    finalExit (asnEvents ip session ++ tailEvs) = finalExit tailEvs := by
  cases session with
  | error m => simp [asnEvents, finalExit]
  | ok raw =>
      cases hp : getAsnInfoFromCymruParse raw with
      | some rec => simp [asnEvents, hp, asnReportLines, finalExit]
      | none => simp [asnEvents, hp, finalExit]

lemma finalExit_run_probed (args : List String) (env : Env)
    (hc : ¬(hostOf args = "" ∨ portOf args = ""))
    (ip : String) (hres : env.resolved = Except.ok ip) :
    finalExit (run args env) = some (if probeOk env.probe then 0 else 1) := by
  simp only [run, hc, if_neg, hres]
  cases hflag : asnFlagOf args with
  | false => simp [finalExit]
  | true =>
      cases hs : env.asnSession with
      | error m => simp [hflag, hs, asnEvents, finalExit]
      | ok raw =>
          cases hp : getAsnInfoFromCymruParse raw with
          | some rec => simp [hflag, hs, hp, asnEvents, asnReportLines, finalExit]
          | none => simp [hflag, hs, hp, asnEvents, finalExit]

lemma probeStart_mem_elim (args : List String) (env : Env)
    (ip p : String) (t : Nat)
    (h : Ev.probeStart ip p t ∈ run args env) :
    env.resolved = Except.ok ip ∧ p = portOf args ∧ t = 5000 := by
  by_cases hc : hostOf args = "" ∨ portOf args = ""
  · exfalso; simp [run, hc] at h
  · cases hres : env.resolved with
    | error m => exfalso; simp [run, hc, hres] at h
    | ok ip' =>
        cases hflag : asnFlagOf args with
        | false =>
            simp [run, hc, hres, hflag] at h
            obtain ⟨h1, h2, h3⟩ := h
            exact ⟨by rw [h1], h2, h3⟩
        | true =>
            cases hs : env.asnSession with
            | error m =>
                simp [run, hc, hres, hflag, hs, asnEvents] at h
                obtain ⟨h1, h2, h3⟩ := h
                exact ⟨by rw [h1], h2, h3⟩
            | ok raw =>
                cases hp : getAsnInfoFromCymruParse raw with
                | some rec =>
                    simp [run, hc, hres, hflag, hs, hp, asnEvents,
                      asnReportLines] at h
                    obtain ⟨h1, h2, h3⟩ := h
                    exact ⟨by rw [h1], h2, h3⟩
                | none =>
                    simp [run, hc, hres, hflag, hs, hp, asnEvents] at h
                    obtain ⟨h1, h2, h3⟩ := h
                    exact ⟨by rw [h1], h2, h3⟩

lemma run_probeSettled_mem (args : List String) (env : Env) (ip : String)
    (hc : ¬(hostOf args = "" ∨ portOf args = ""))
    (hres : env.resolved = Except.ok ip) :
    Ev.probeSettled ∈ run args env := by
  simp [run, hc, hres]

lemma run_probeLine_mem (args : List String) (env : Env) (ip : String)
    (hc : ¬(hostOf args = "" ∨ portOf args = ""))
    (hres : env.resolved = Except.ok ip) :
    Ev.emitOut (probeLineMsg (hostOf args) ip (portOf args) (probeOk env.probe))
      ∈ run args env := by
  simp [run, hc, hres]

lemma run_asnSettled_mem (args : List String) (env : Env) (ip : String)
    (hflag : asnFlagOf args = true)
    (hc : ¬(hostOf args = "" ∨ portOf args = ""))
    (hres : env.resolved = Except.ok ip) :
    Ev.asnSettled ∈ run args env := by
  simp [run, hc, hres, hflag, asnEvents]

lemma run_reports_asn (args : List String) (env : Env) (ip : String)
    (hflag : asnFlagOf args = true)
    (hc : ¬(hostOf args = "" ∨ portOf args = ""))
    (hres : env.resolved = Except.ok ip) :
    asnSettlementReported env.asnSession (run args env) := by
  cases hs : env.asnSession with
  | error m =>
      simp only [asnSettlementReported]
      simp [run, hc, hres, hflag, hs, asnEvents]
  | ok raw =>
      simp only [asnSettlementReported]
      cases hp : getAsnInfoFromCymruParse raw with
      | some rec =>
          intro l hl
          simp only [asnReportLines, List.mem_cons, List.not_mem_nil, or_false] at hl
          rcases hl with h | h | h | h | h | h <;>
            (subst h; simp [run, hc, hres, hflag, hs, hp, asnEvents, asnReportLines])
      | none =>
          simp [run, hc, hres, hflag, hs, hp, asnEvents]

lemma run_probeSettledBeforeEmits_true (args : List String) (env : Env)
    (ip : String)
    (hc : ¬(hostOf args = "" ∨ portOf args = ""))
    (hres : env.resolved = Except.ok ip) :
    probeSettledBeforeEmits (run args env) = true := by
  cases hflag : asnFlagOf args with
  | false =>
      simp [run, hc, hres, hflag, probeSettledBeforeEmits,
        probeSettledBeforeEmitsGo]
  | true =>
      cases hs : env.asnSession with
      | error m =>
          simp [run, hc, hres, hflag, hs, asnEvents, probeSettledBeforeEmits,
            probeSettledBeforeEmitsGo]
      | ok raw =>
          cases hp : getAsnInfoFromCymruParse raw with
          | some rec =>
              simp [run, hc, hres, hflag, hs, hp, asnEvents, asnReportLines,
                probeSettledBeforeEmits, probeSettledBeforeEmitsGo]
          | none =>
              simp [run, hc, hres, hflag, hs, hp, asnEvents,
                probeSettledBeforeEmits, probeSettledBeforeEmitsGo]

lemma run_asnSettledBeforeAsnEmits_true (args : List String) (env : Env)
    (ip : String)
    (hc : ¬(hostOf args = "" ∨ portOf args = ""))
    (hres : env.resolved = Except.ok ip) :
    asnSettledBeforeAsnEmits (run args env) = true := by
  cases hflag : asnFlagOf args with
  | false =>
      simp [run, hc, hres, hflag, asnSettledBeforeAsnEmits,
        asnSettledBeforeAsnEmitsGo]
  | true =>
      cases hs : env.asnSession with
      | error m =>
          simp [run, hc, hres, hflag, hs, asnEvents, asnSettledBeforeAsnEmits,
            asnSettledBeforeAsnEmitsGo]
      | ok raw =>
          cases hp : getAsnInfoFromCymruParse raw with
          | some rec =>
              simp [run, hc, hres, hflag, hs, hp, asnEvents, asnReportLines,
                asnSettledBeforeAsnEmits, asnSettledBeforeAsnEmitsGo]
          | none =>
              simp [run, hc, hres, hflag, hs, hp, asnEvents,
                asnSettledBeforeAsnEmits, asnSettledBeforeAsnEmitsGo]

/-!
## Claim theorems
-/

/-- C5 (counterexample): the claim asserts that once one race branch wins,
the other listeners are deactivated before any result is produced.  In
`src/cli.js` the `connect` branch only calls `socket.end()` and resolves: no
listener is detached and the timeout timer is not cleared.  Concretely,
after `connect` has already settled the outcome, a late `timeout` event
still runs its listener body (it destroys the socket — an observable state
change) — the listener was still active after the result was produced.  The
settled outcome nevertheless never changes. -/
theorem cliRace_listeners_not_deactivated_after_win :
    (cliRace "1.2.3.4" "80" 5000 [SockEvent.connect]).settled =
        some (Outcome.opened ()) ∧
    (cliRace "1.2.3.4" "80" 5000 [SockEvent.connect]).listenersDetached = false ∧
    (cliRace "1.2.3.4" "80" 5000 [SockEvent.connect]).destroyed = false ∧
    (cliRace "1.2.3.4" "80" 5000
        [SockEvent.connect, SockEvent.timeout]).destroyed = true ∧
    (cliRace "1.2.3.4" "80" 5000
        [SockEvent.connect, SockEvent.timeout]).settled =
        some (Outcome.opened ()) := by
  refine ⟨rfl, rfl, rfl, rfl, rfl⟩

/-- C5 (amended): in the race inside `checkConnection` (`src/cli.js` 13-35),
at most one branch ever settles the caller-visible outcome: the
first-settlement-wins guard of the promise (together with socket destruction in the
`timeout` and `error` branches) means the first delivered event fully
determines the settlement, and no later event — a late timer firing after
the socket connected, a late error after the timer fired, or any other
second event — can resolve or change the already-settled outcome.  (The
losing listeners are not detached; a late listener body may still run, but
it cannot alter the settlement.) -/
theorem checkConnection_at_most_once_settlement (ip port : String)
    (timeoutMs : Nat) (e : SockEvent) (later : List SockEvent) :
    (cliRace ip port timeoutMs (e :: later)).settled =
      some (cliOutcomeOf ip port timeoutMs e) :=
  cliRace_first_event ip port timeoutMs e later

/-- C9: the two `checkConnection` variants (`src/cli.js` 13-35 and
`src/unnamed/part_000` 13-44) are outcome-equivalent: for the same
first-arriving socket event both settle, to the same outcome class —
success on `connect` after gracefully ending (not destroying) the socket,
a timeout rejection after `timeout` with the socket destroyed, an error
rejection after `error` with the socket destroyed — and both timeout
messages mention the timeout duration `timeoutMs` followed by `ms`; the
variants differ at most in the text of the timeout message. -/
theorem checkConnection_variants_outcome_equivalent (ip host resolvedIp port : String)
    (timeoutMs : Nat) (e : SockEvent) (later : List SockEvent) :
    ((cliRace ip port timeoutMs (e :: later)).settled.map classOf =
        some (eventClass e)) ∧
    ((variantRace host port timeoutMs resolvedIp (e :: later)).settled.map classOf =
        some (eventClass e)) ∧
    ((cliRace ip port timeoutMs [e]).ended = eventEndsSocket e) ∧
    ((variantRace host port timeoutMs resolvedIp [e]).ended = eventEndsSocket e) ∧
    ((cliRace ip port timeoutMs [e]).destroyed = eventDestroysSocket e) ∧
    ((variantRace host port timeoutMs resolvedIp [e]).destroyed =
        eventDestroysSocket e) ∧
    (∃ a b, cliTimeoutMsg ip port timeoutMs =
        a ++ (toString timeoutMs ++ "ms") ++ b) ∧
    (∃ a b, variantTimeoutMsg host port timeoutMs =
        a ++ (toString timeoutMs ++ "ms") ++ b) := by
  refine ⟨?_, ?_, ?_, ?_, ?_, ?_, ?_, ?_⟩
  · rw [cliRace_first_event]
    cases e <;> simp [cliOutcomeOf, classOf, eventClass]
  · rw [variantRace_first_event]
    cases e <;> simp [variantOutcomeOf, classOf, eventClass]
  · cases e <;> simp [cliRace, cliCheckConnectionStep, raceInit, settle,
      eventEndsSocket]
  · cases e <;> simp [variantRace, variantCheckConnectionStep, raceInit, settle,
      eventEndsSocket]
  · cases e <;> simp [cliRace, cliCheckConnectionStep, raceInit, settle,
      eventDestroysSocket]
  · cases e <;> simp [variantRace, variantCheckConnectionStep, raceInit, settle,
      eventDestroysSocket]
  · refine ⟨"Timed out after ", " trying to connect to " ++ ip ++ ":" ++ port, ?_⟩
    unfold cliTimeoutMsg
    have h1 : "ms trying to connect to " = "ms" ++ " trying to connect to " := rfl
    rw [h1]
    simp only [string_append_assoc]
  · refine ⟨"Timed out after ", " trying to connect to " ++ host ++ ":" ++ port, ?_⟩
    unfold variantTimeoutMsg
    have h1 : "ms trying to connect to " = "ms" ++ " trying to connect to " := rfl
    rw [h1]
    simp only [string_append_assoc]

/-- C3: when the accumulated whois response text is exactly the synthetic
header-plus-data reply, the end-of-stream parse of `getAsnInfoFromCymru`
returns the populated record whose seven fields are, positionally,
`asn = "15169"`, reported IP `"8.8.8.8"`, BGP prefix `"8.8.8.0/24"`, country
code `"US"`, registry `"ARIN"`, allocation date `"1992-12-01"` and AS name
`"GOOGLE - Google LLC, US"`; and trailing columns beyond the 7th in the data
row are ignored — appending an extra column yields the same record. -/
theorem getAsnInfoFromCymru_roundtrip :
    getAsnInfoFromCymruParse c3Response = some googleRec ∧
    getAsnInfoFromCymruParse c3ResponseExtra = some googleRec :=
  ⟨by decide, by decide⟩

/-- C4: the end-of-stream parse of `getAsnInfoFromCymru` returns absence
(`none`) — rather than raising an error — whenever, after splitting the
response into lines, trimming each and discarding empty lines, fewer than
two non-empty lines remain, or the second non-empty line splits on the pipe
delimiter into fewer than 7 trimmed fields.  (The parse is a total Lean
function, so it returns on every response text; the JS body performs no
throwing operation on this path.) -/
theorem getAsnInfoFromCymru_parse_absence (raw : String)
    (h : (cymruLines raw).length < 2 ∨
      (cymruColumns ((cymruLines raw).getD 1 "")).length < 7) :
    getAsnInfoFromCymruParse raw = none := by
  rcases h with h | h
  · have h1 : ¬ 1 < (cymruLines raw).length := by omega
    simp [getAsnInfoFromCymruParse, h1]
  · by_cases h1 : 1 < (cymruLines raw).length
    · rw [List.getD_eq_getElem _ _ h1] at h
      simp [getAsnInfoFromCymruParse, h1]
      omega
    · simp [getAsnInfoFromCymruParse, h1]

/-- Witness for C4: a header-only response has exactly one non-empty line
and parses to absence. -/
theorem getAsnInfoFromCymru_parse_absence_witness :
    (cymruLines "AS | IP | BGP Prefix | CC | Registry | Allocated | AS Name\n").length < 2 ∧
    getAsnInfoFromCymruParse
      "AS | IP | BGP Prefix | CC | Registry | Allocated | AS Name\n" = none :=
  ⟨by decide, getAsnInfoFromCymru_parse_absence _ (Or.inl (by decide))⟩

/-- C2: for every invocation that reaches the probing stage, the exit code
is `0` iff the probe settled `Open` (resolved), it is `1` for every rejected
probe (`Closed` surfaces as a connection error rejection, `TimedOut` and
`ConnectionError` likewise), and replacing the ASN session ending by any
other — success or transport failure — never changes the exit code. -/
theorem run_exit_code_reflects_probe_only (args : List String) (env : Env)
    (h : probed args env = true) :
    (finalExit (run args env) = some 0 ↔ probeOk env.probe = true) ∧
    (probeOk env.probe = false → finalExit (run args env) = some 1) ∧
    (∀ s, finalExit (run args { env with asnSession := s }) =
      finalExit (run args env)) := by
  obtain ⟨hc, ip, hres⟩ := probed_elim args env h
  have h1 := finalExit_run_probed args env hc ip hres
  refine ⟨?_, ?_, ?_⟩
  · rw [h1]
    cases hpo : probeOk env.probe <;> simp
  · intro hpo
    rw [h1, hpo]
    simp
  · intro s
    have h2 := finalExit_run_probed args { env with asnSession := s } hc ip
      (by simpa using hres)
    rw [h1, h2]

/-- Witness for C2: a refused connection with `--asn` exits `1`. -/
theorem run_exit_code_reflects_probe_only_witness :
    finalExit (run ["--asn", "example.com", "81"] envRefused) = some 1 := by
  have h := run_exit_code_reflects_probe_only ["--asn", "example.com", "81"]
    envRefused (by decide)
  exact h.2.1 (by decide)

/-- C7: for every invocation whose hostname resolution fails, the program
emits exactly the resolution-error line and exits with code 1: the trace
contains no probe start and no ASN lookup start — no downstream network
operation is attempted. -/
theorem run_resolution_failure_short_circuits (args : List String) (env : Env)
    (m : String)
    (hc : ¬(hostOf args = "" ∨ portOf args = ""))
    (hres : env.resolved = Except.error m) :
    run args env = [Ev.emitErr (resolveErrMsg (hostOf args) m), Ev.exitCode 1] ∧
    finalExit (run args env) = some 1 ∧
    probed args env = false ∧
    (run args env).any isAsnStart = false := by
  have htr : run args env =
      [Ev.emitErr (resolveErrMsg (hostOf args) m), Ev.exitCode 1] := by
    simp [run, hc, hres]
  refine ⟨htr, ?_, ?_, ?_⟩ <;>
    simp [htr, probed, finalExit, isProbeStart, isAsnStart]

/-- Witness for C7: a failing resolution produces only the error line and
exit 1. -/
theorem run_resolution_failure_short_circuits_witness :
    run ["nosuch.example", "80"] envResolveFail =
      [Ev.emitErr (resolveErrMsg "nosuch.example"
        "getaddrinfo ENOTFOUND nosuch.example"), Ev.exitCode 1] :=
  (run_resolution_failure_short_circuits ["nosuch.example", "80"]
    envResolveFail "getaddrinfo ENOTFOUND nosuch.example" (by decide) rfl).1

/-- C8: for every invocation carrying `--asn` that reaches the probing
stage and whose ASN session delivers a response, the ASN output — the six
labeled field lines when the response parses to a record, the
no-information line otherwise — is printed, whatever the probe outcome; and
when the port is not open the exit code is still 1. -/
theorem run_asn_reported_for_every_probe_outcome (args : List String)
    (env : Env) (raw : String)
    (hflag : asnFlagOf args = true)
    (h : probed args env = true)
    (hasn : env.asnSession = Except.ok raw) :
    asnSettlementReported (Except.ok raw) (run args env) ∧
    (probeOk env.probe = false → finalExit (run args env) = some 1) := by
  obtain ⟨hc, ip, hres⟩ := probed_elim args env h
  refine ⟨?_, ?_⟩
  · have hrep := run_reports_asn args env ip hflag hc hres
    rwa [hasn] at hrep
  · intro hpo
    have h1 := finalExit_run_probed args env hc ip hres
    rw [hpo] at h1
    simpa using h1

/-- Witness for C8: `--asn` with a refused port still prints the six ASN
field lines, and exits 1. -/
theorem run_asn_reported_for_every_probe_outcome_witness :
    asnSettlementReported (Except.ok c3Response)
      (run ["--asn", "example.com", "81"] envRefused) ∧
    finalExit (run ["--asn", "example.com", "81"] envRefused) = some 1 := by
  have h := run_asn_reported_for_every_probe_outcome
    ["--asn", "example.com", "81"] envRefused c3Response rfl (by decide) rfl
  exact ⟨h.1, h.2 (by decide)⟩

/-- C10: the probe timeout of the CLI is the fixed constant 5000
milliseconds: every probe start in every trace of `run` — whatever the
argument list, so no command-line argument can change it — carries
`timeoutMs = 5000`. -/
theorem run_probe_timeout_is_5000 (args : List String) (env : Env)
    (ip p : String) (t : Nat)
    (h : Ev.probeStart ip p t ∈ run args env) :
    t = 5000 :=
  (probeStart_mem_elim args env ip p t h).2.2

/-- Witness for C10. -/
theorem run_probe_timeout_is_5000_witness : (5000 : Nat) = 5000 :=
  run_probe_timeout_is_5000 ["example.com", "80"] envOpenAsn "9.9.9.9" "80"
    5000 (by decide)

/-- C1 (counterexample): the claim asserts that no result line is emitted
until both the probe and the ASN lookup have settled.  In `src/cli.js` the
probe result line is printed (step 3) before the ASN lookup is even started
(step 4): on the concrete invocation `--asn example.com 80` with a
successful resolution, open port and well-formed ASN response, the trace
emits the probe result line before `asnSettled`, so the trace fails the
both-settled-before-any-emit property. -/
theorem run_emits_probe_line_before_asn_settles :
    asnFlagOf ["--asn", "example.com", "80"] = true ∧
    envOpenAsn.resolved = Except.ok "9.9.9.9" ∧
    noEmitBeforeBothSettled (run ["--asn", "example.com", "80"] envOpenAsn) = false ∧
    run ["--asn", "example.com", "80"] envOpenAsn =
      [Ev.probeStart "9.9.9.9" "80" 5000, Ev.probeSettled,
       Ev.emitOut (probeLineMsg "example.com" "9.9.9.9" "80" true),
       Ev.asnStart "9.9.9.9", Ev.asnSettled] ++
        asnReportLines googleRec ++ [Ev.exitCode 0] :=
  ⟨by decide, rfl, by decide, by decide⟩

/-- C1 (amended): for every invocation in which the ASN lookup was requested
and resolution succeeded, the probe and the ASN lookup each run to
completion (each settling), and the result line of each operation is emitted
only after that operation has settled — though the probe result line is emitted
before the ASN lookup has settled — and a failure of one never suppresses
the reporting of the outcome of the other: the probe line is reported
whatever the ASN session ending, and the ASN settlement is reported whatever the
probe outcome. -/
theorem run_each_operation_settles_before_its_report (args : List String)
    (env : Env) (ip : String)
    (hflag : asnFlagOf args = true)
    (hc : ¬(hostOf args = "" ∨ portOf args = ""))
    (hres : env.resolved = Except.ok ip) :
    Ev.probeSettled ∈ run args env ∧
    Ev.asnSettled ∈ run args env ∧
    probeSettledBeforeEmits (run args env) = true ∧
    asnSettledBeforeAsnEmits (run args env) = true ∧
    Ev.emitOut (probeLineMsg (hostOf args) ip (portOf args)
      (probeOk env.probe)) ∈ run args env ∧
    asnSettlementReported env.asnSession (run args env) :=
  ⟨run_probeSettled_mem args env ip hc hres,
   run_asnSettled_mem args env ip hflag hc hres,
   run_probeSettledBeforeEmits_true args env ip hc hres,
   run_asnSettledBeforeAsnEmits_true args env ip hc hres,
   run_probeLine_mem args env ip hc hres,
   run_reports_asn args env ip hflag hc hres⟩

/-- Witness for the amended C1. -/
theorem run_each_operation_settles_before_its_report_witness :
    probeSettledBeforeEmits (run ["--asn", "example.com", "80"] envOpenAsn) = true ∧
    asnSettledBeforeAsnEmits (run ["--asn", "example.com", "80"] envOpenAsn) = true := by
  have h := run_each_operation_settles_before_its_report
    ["--asn", "example.com", "80"] envOpenAsn "9.9.9.9" rfl (by decide) rfl
  exact ⟨h.2.2.1, h.2.2.2.1⟩

/-- C6 (counterexample): the claim asserts the port argument is parsed as an
integer in 1-65535 before any probe and that out-of-range values are not
probed.  `run` in `src/cli.js` performs no parsing or range check: on the
concrete invocation `example.com 70000` the probe is started with the raw
string `"70000"`, whose numeric value 70000 exceeds 65535. -/
theorem run_probes_out_of_range_port :
    Ev.probeStart "198.51.100.7" "70000" 5000 ∈
      run ["example.com", "70000"] envBadPort ∧
    portOf ["example.com", "70000"] = toString 70000 ∧
    65535 < 70000 :=
  ⟨by decide, by decide, by decide⟩

/-- C6 (amended): `run` forwards the port argument to the probe as the raw
second positional command-line string, without parsing it or checking any
range: whenever a probe is started, its port is exactly that raw argument
(and the probed IP is the resolution result).  Range enforcement, if any,
happens only in the runtime socket layer, outside this program. -/
theorem run_forwards_raw_port_to_probe (args : List String) (env : Env)
    (ip p : String) (t : Nat)
    (h : Ev.probeStart ip p t ∈ run args env) :
    p = portOf args ∧ env.resolved = Except.ok ip :=
  ⟨(probeStart_mem_elim args env ip p t h).2.1,
   (probeStart_mem_elim args env ip p t h).1⟩

/-- Witness for the amended C6. -/
theorem run_forwards_raw_port_to_probe_witness :
    "70000" = portOf ["example.com", "70000"] ∧
    envBadPort.resolved = Except.ok "198.51.100.7" :=
  run_forwards_raw_port_to_probe ["example.com", "70000"] envBadPort
    "198.51.100.7" "70000" 5000 (by decide)
